import Mathlib

/-!
# Verification of the academic-notion task server core

Shallow embedding of `src/notion_mcp/server.py`: the title parser
(`parse_task_type`), the lifecycle engine (`create_assignment_with_countdown`,
`complete_task_with_logic`), and the command dispatcher (`call_tool`).

Python strings are modelled through their character lists; Python functions
that can raise return `Option`/`Except`.  The remote Notion store is modelled
as an in-memory list of records plus a counter assigning fresh page ids; each
network call consumes one entry of a `net` oracle list (`true` = the HTTP call
succeeds, an exhausted list means every further call succeeds), so that
collaborator failures are expressible.  Every store mutation (page create /
status patch) performed by an operation is recorded in an ordered trace.
-/

namespace NotionMcp

/-- Python `str.isspace` characters relevant to `str.strip()` / `str.split()`
(ASCII subset: space, tab, newline, carriage return, vertical tab, form feed). -/
def pyIsSpace (c : Char) : Bool :=
  c = ' ' || c = '\t' || c = '\n' || c = '\r' || c = '\x0b' || c = '\x0c'

/-- Drop trailing characters satisfying `pyIsSpace` (right half of `str.strip()`). -/
def dropTrailing (cs : List Char) : List Char :=
  (cs.reverse.dropWhile pyIsSpace).reverse

/-- Python `str.strip()` on a character list. -/
def stripList (cs : List Char) : List Char :=
  dropTrailing (cs.dropWhile pyIsSpace)

/-- Python `title.strip()`. -/
def pyStrip (s : String) : String := String.mk (stripList s.data)

/-- The character of a decimal digit `n < 10`. -/
def digitChar (n : Nat) : Char := Char.ofNat (48 + n)

/-- Fuel-driven digit expansion (structural recursion so that concrete
values reduce in the kernel); any fuel above the digit count is enough. -/
def natDecAux : Nat → Nat → List Char
  | 0, _ => []
  | fuel + 1, n =>
    if n < 10 then [digitChar n]
    else natDecAux fuel (n / 10) ++ [digitChar (n % 10)]

/-- Decimal representation of a natural number, as produced by Python
`str(n)` / f-string interpolation of an `int`. -/
def natDec (n : Nat) : List Char := natDecAux (n + 1) n

/-- `str(n)` for a natural number. -/
def natDecS (n : Nat) : String := String.mk (natDec n)

/-- `str(i)` for a Python `int` (sign included). -/
def intDecS (i : Int) : String :=
  if i < 0 then "-" ++ String.mk (natDec (-i).toNat) else String.mk (natDec i.toNat)

/-- Numeric value of a list of decimal digit characters. -/
def decVal (cs : List Char) : Nat :=
  cs.foldl (fun a c => a * 10 + (c.toNat - 48)) 0

/-- Python `s.isdigit()` (ASCII digits): nonempty and all characters digits. -/
def listIsDigit (cs : List Char) : Bool :=
  !cs.isEmpty && cs.all Char.isDigit

/-- Python `int(s)` on a string: surrounding whitespace is allowed, the body
must be plain decimal digits; any other shape raises `ValueError` (`none`).
(The sign/underscore forms accepted by `int` are unreachable here: they never
pass the `isdigit` guards that precede every `int` call in the source.) -/
def pyInt (cs : List Char) : Option Nat :=
  let t := stripList cs
  if listIsDigit t then some (decVal t) else none

/-- Python `s.split(sep, maxsplit)` on a character list, returned as
(first field, remaining fields).  `"".split(sep, n) = [""]` becomes `([], [])`. -/
def pySplit2List (sep : Char) : List Char → Nat → List Char × List (List Char)
  | [], _ => ([], [])
  | c :: cs, 0 => (c :: cs, [])
  | c :: cs, n + 1 =>
    if c = sep then
      ([], (pySplit2List sep cs n).1 :: (pySplit2List sep cs n).2)
    else
      (c :: (pySplit2List sep cs (n + 1)).1, (pySplit2List sep cs (n + 1)).2)

/-- `s.split(sep, maxsplit)` with the usual argument order. -/
def pySplit2 (sep : Char) (n : Nat) (cs : List Char) : List Char × List (List Char) :=
  pySplit2List sep cs n

/-- Python `title.split()[0]`: first maximal whitespace-free run.  `none`
models the `IndexError` raised when the string has no non-whitespace
character (`[]​[0]`). -/
def firstWsToken (cs : List Char) : Option (List Char) :=
  match cs.dropWhile pyIsSpace with
  | [] => none
  | c :: rest => some ((c :: rest).takeWhile (fun x => !pyIsSpace x))

/-- Python `str.upper()` (ASCII model). -/
def pyUpper (s : String) : String := String.mk (s.data.map Char.toUpper)

/-- Python `str.lower()` (ASCII model). -/
def pyLower (s : String) : String := String.mk (s.data.map Char.toLower)

/-- The typed task descriptor produced by the title parser
(`kind` = constructor; `is_main_task` is `true` exactly for `assignment`). -/
inductive TaskDescriptor where
  | assignment (assignment_type subject description : String)
  | countdown (days_left : Nat) (subject description : String)
  | priority (priority : Nat) (description : String)
  | regular (description : String)
deriving Repr, DecidableEq

/-- `parse_task_type` (server.py lines 51-98).  `none` models an uncaught
exception: the `IndexError` from `title.split()[0]` on an empty stripped
title, and the `ValueError` from `int(parts[0])` when the `split(' ', 2)`
field extends a digit token with non-space whitespace and further text. -/
def parse_task_type (title0 : String) : Option TaskDescriptor :=
  let t := stripList title0.data
  if List.isPrefixOf "H ".data t || List.isPrefixOf "HTN ".data t
      || List.isPrefixOf "Q ".data t then
    let p := pySplit2 ' ' 2 t
    some (.assignment (String.mk p.1)
      (String.mk (p.2.getD 0 [])) (String.mk (p.2.getD 1 [])))
  else
    match firstWsToken t with
    | none => none
    | some tok =>
      if listIsDigit tok && !(t.getLast? == some '*') then
        let p := pySplit2 ' ' 2 t
        match pyInt p.1 with
        | none => none
        | some days =>
          some (.countdown days (String.mk (p.2.getD 0 [])) (String.mk (p.2.getD 1 [])))
      else if t.contains '*' && listIsDigit (stripList (t.takeWhile (fun c => c != '*'))) then
        let p := pySplit2 '*' 1 t
        match pyInt (stripList p.1) with
        | none => none
        | some pr => some (.priority pr (String.mk (stripList (p.2.getD 0 []))))
      else
        some (.regular (String.mk t))

/-! ## Calendar dates (Python `datetime` on the Gregorian calendar) -/

/-- A calendar date. -/
structure Date where
  year : Int
  month : Nat
  day : Nat
deriving Repr, DecidableEq

/-- Gregorian leap year. -/
def isLeap (y : Int) : Bool := y % 4 == 0 && (y % 100 != 0 || y % 400 == 0)

/-- Length of a month. -/
def daysInMonth (y : Int) (m : Nat) : Nat :=
  if m = 2 then (if isLeap y then 29 else 28)
  else if m = 4 || m = 6 || m = 9 || m = 11 then 30
  else 31

/-- The next calendar day (`date + timedelta(days=1)`). -/
def nextDay (d : Date) : Date :=
  if d.day < daysInMonth d.year d.month then ⟨d.year, d.month, d.day + 1⟩
  else if d.month < 12 then ⟨d.year, d.month + 1, 1⟩
  else ⟨d.year + 1, 1, 1⟩

/-- The previous calendar day. -/
def prevDay (d : Date) : Date :=
  if 1 < d.day then ⟨d.year, d.month, d.day - 1⟩
  else if 1 < d.month then ⟨d.year, d.month - 1, daysInMonth d.year (d.month - 1)⟩
  else ⟨d.year - 1, 12, 31⟩

/-- Unbounded Gregorian subtraction of `n` days. -/
def subDays : Date → Nat → Date
  | d, 0 => d
  | d, n + 1 => subDays (prevDay d) n

/-- `datetime - timedelta(days=n)`: Gregorian subtraction guarded by
`datetime.min` = 0001-01-01; `none` models the `OverflowError` (`date value
out of range`) Python raises when the result precedes year 1.  (Subtraction
from a representable date can only leave the range downwards, and every
below-range result of `subDays` has year below 1.) -/
def timedelta_sub (d : Date) (n : Nat) : Option Date :=
  if (subDays d n).year < 1 then none else some (subDays d n)

/-- Left-pad a decimal rendering with zeros. -/
def padNum (w n : Nat) : List Char :=
  List.replicate (w - (natDec n).length) '0' ++ natDec n

/-- Python `date.strftime("%Y-%m-%d")`. -/
def format_date (d : Date) : String :=
  String.mk (padNum 4 d.year.toNat ++ '-' :: padNum 2 d.month ++ '-' :: padNum 2 d.day)

/-- Python `datetime.strptime(s, "%Y-%m-%d")`: exactly four digits of year,
one or two digits of month (1-12) and day (1-31), `-`-separated, nothing
else; the day must exist in the month and the year be at least 1, otherwise
`ValueError` (`none`). -/
def date_strptime (s : String) : Option Date :=
  match s.data.splitOn '-' with
  | [ys, ms, ds] =>
    if ys.length = 4 && ys.all Char.isDigit
        && 1 ≤ ms.length && ms.length ≤ 2 && ms.all Char.isDigit
        && 1 ≤ ds.length && ds.length ≤ 2 && ds.all Char.isDigit then
      let y : Int := (decVal ys : Nat)
      let m := decVal ms
      let dd := decVal ds
      if 1 ≤ y && 1 ≤ m && m ≤ 12 && 1 ≤ dd && dd ≤ daysInMonth y m then
        some ⟨y, m, dd⟩
      else none
    else none
  | _ => none

/-! ## The store collaborator and the mutation trace -/

/-- A JSON scalar as passed in tool arguments. -/
inductive JVal where
  | s (v : String)
  | i (v : Int)
deriving Repr, DecidableEq

/-- Rendering of a JSON scalar inside a Python f-string. -/
def JVal.render : JVal → String
  | .s v => v
  | .i v => intDecS v

/-- Python truthiness of a JSON scalar (`""` and `0` are falsy). -/
def jvalTruthy : JVal → Bool
  | .s v => v != ""
  | .i v => v != 0

/-- A Notion page of the task database, projected to the properties the
server reads and writes. -/
structure TaskRecord where
  id : String
  title : String
  status : String
  due_date : Option String
  task_type : String
  priority : Option JVal
  related_task_id : Option String
deriving Repr, DecidableEq

/-- One store mutation: a page create (with the record as created, its
assigned id included) or a status patch. -/
inductive Mutation where
  | create (rec : TaskRecord)
  | update (id : String) (status : String)
deriving Repr, DecidableEq

/-- The world the server talks to: the database contents, the id counter of
the store, the outcome oracle for network calls (exhausted = all succeed) and
the current date (`datetime.now()`). -/
structure Env where
  store : List TaskRecord
  nextId : Nat
  net : List Bool
  now : Date
deriving Repr, DecidableEq

/-- Consume one network-outcome entry; an empty oracle means success. -/
def netPop : List Bool → Bool × List Bool
  | [] => (true, [])
  | b :: r => (b, r)

/-- The page id the store assigns to its `n`-th created page. -/
def pageId (n : Nat) : String := "page-" ++ natDecS n

/-- The record built from a `create_task` payload (server.py lines 118-176):
status, due date, priority and related-task properties are attached only when
truthy; a provided due time is appended to the date as `T{time}:00`. -/
def mkRecord (env : Env) (title : String) (due_date : Option String)
    (due_time : Option JVal) (status task_type : String) (priority : Option JVal)
    (related_task_id : Option String) : TaskRecord :=
  { id := pageId env.nextId
    title := title
    status := status
    due_date :=
      match due_date with
      | some dd =>
        if dd = "" then none
        else some (dd ++
          (match due_time with
           | some tv => if jvalTruthy tv then "T" ++ tv.render ++ ":00" else ""
           | none => ""))
      | none => none
    task_type := task_type
    priority :=
      match priority with
      | some pv => if jvalTruthy pv then some pv else none
      | none => none
    related_task_id :=
      match related_task_id with
      | some rid => if rid = "" then none else some rid
      | none => none }

/-- `create_task` (server.py lines 118-176): one POST to the store; on
success the new page is appended and returned. -/
def create_task (env : Env) (title : String) (due_date : Option String)
    (due_time : Option JVal) (status task_type : String) (priority : Option JVal)
    (related_task_id : Option String) :
    Except String TaskRecord × List Mutation × Env :=
  if (netPop env.net).1 then
    (Except.ok (mkRecord env title due_date due_time status task_type priority related_task_id),
     [Mutation.create (mkRecord env title due_date due_time status task_type priority related_task_id)],
     { env with
        store := env.store ++
          [mkRecord env title due_date due_time status task_type priority related_task_id]
        nextId := env.nextId + 1
        net := (netPop env.net).2 })
  else
    (Except.error "store call failed", [], { env with net := (netPop env.net).2 })

/-- `update_task_status` (server.py lines 178-194): one PATCH setting the
Status select of a page. -/
def update_task_status (env : Env) (page_id status : String) :
    Except String Unit × List Mutation × Env :=
  if (netPop env.net).1 then
    (Except.ok (), [Mutation.update page_id status],
     { env with
        store := env.store.map (fun r => if r.id = page_id then { r with status := status } else r)
        net := (netPop env.net).2 })
  else
    (Except.error "store call failed", [], { env with net := (netPop env.net).2 })

/-- `needle` occurs as a contiguous substring of `hay`. -/
def containsSub (needle : List Char) : List Char → Bool
  | [] => needle.isEmpty
  | c :: t => needle.isPrefixOf (c :: t) || containsSub needle t

/-- The records matched by the Notion title-contains filter for `title`. -/
def findMatches (store : List TaskRecord) (title : String) : List TaskRecord :=
  store.filter (fun r => containsSub title.data r.title.data)

/-- `find_tasks_by_title` (server.py lines 196-210): one query with a
`Name contains` filter; results come back in store order. -/
def find_tasks_by_title (env : Env) (title : String) :
    Except String (List TaskRecord) × Env :=
  if (netPop env.net).1 then
    (Except.ok (findMatches env.store title), { env with net := (netPop env.net).2 })
  else
    (Except.error "store call failed", { env with net := (netPop env.net).2 })

/-- `fetch_tasks` (server.py lines 100-116): one query returning every record
(the remote due-date sort is modelled as store order). -/
def fetch_tasks (env : Env) : Except String (List TaskRecord) × Env :=
  if (netPop env.net).1 then
    (Except.ok env.store, { env with net := (netPop env.net).2 })
  else
    (Except.error "store call failed", { env with net := (netPop env.net).2 })

/-- Result dict of `create_assignment_with_countdown`: either the two page
ids plus a message, or the `error` key. -/
inductive AResult where
  | ok (main_task countdown_task message : String)
  | err (msg : String)
deriving Repr, DecidableEq

/-- Result dict of `complete_task_with_logic`. -/
inductive CResult where
  | message (msg : String)
  | err (msg : String)
deriving Repr, DecidableEq

/-- `create_assignment_with_countdown` (server.py lines 212-248).  The due
date is parsed first; a `ValueError` is caught by the function's own
`except`, producing an error dict with no mutation.  Otherwise the anchor is
created, then (line 229, after the anchor create) the countdown date is
computed — an `OverflowError` for due dates within the first five days of
year 1 is caught by the same `except`, leaving the anchor in place — and
finally the countdown is created five days earlier carrying the anchor's id;
a store failure after the anchor create likewise leaves the anchor in place
(no rollback). -/
def create_assignment_with_countdown (env : Env)
    (assignment_type subject description due_date : String)
    (due_time : Option JVal) : AResult × List Mutation × Env :=
  match date_strptime due_date with
  | none =>
    (AResult.err ("time data '" ++ due_date ++ "' does not match format '%Y-%m-%d'"), [], env)
  | some due =>
    match create_task env (assignment_type ++ " " ++ pyUpper subject ++ " " ++ pyUpper description)
        (some due_date) due_time
        (if assignment_type = "H" || assignment_type = "HTN" || assignment_type = "Q"
         then "due" else "")
        "assignment" none none with
    | (Except.error e, tr, env1) => (AResult.err e, tr, env1)
    | (Except.ok main_task, tr1, env1) =>
      match timedelta_sub due 5 with
      | none => (AResult.err "date value out of range", tr1, env1)
      | some countdown_date =>
        match create_task env1 ("5 " ++ pyLower subject ++ " " ++ pyLower description)
            (some (format_date countdown_date)) none "" "countdown" none (some main_task.id) with
        | (Except.error e, tr2, env2) => (AResult.err e, tr1 ++ tr2, env2)
        | (Except.ok cd, tr2, env2) =>
          (AResult.ok main_task.id cd.id
            ("Created " ++ (assignment_type ++ " " ++ pyUpper subject ++ " " ++ pyUpper description)
              ++ " with 5-day countdown task"),
           tr1 ++ tr2, env2)

/-- `complete_task_with_logic` (server.py lines 250-293).  The title lookup
runs first; an empty result returns the not-found error dict with no
mutation.  The descriptor is recomputed by `parse_task_type(task_title)` (the
argument string); an exception there is caught by the function's own
`except` before any mutation (the message of the caught exception is
abstracted to its dominant case).  Then the first matched record is patched
to `completed`, and for a countdown descriptor with `days_left - 1 > 0` one
successor countdown page due tomorrow is created. -/
def complete_task_with_logic (env : Env) (task_title : String) :
    CResult × List Mutation × Env :=
  match find_tasks_by_title env task_title with
  | (Except.error e, env1) => (CResult.err e, [], env1)
  | (Except.ok tasks, env1) =>
    match tasks with
    | [] => (CResult.err ("Task '" ++ task_title ++ "' not found"), [], env1)
    | task :: _ =>
      match parse_task_type task_title with
      | none => (CResult.err "list index out of range", [], env1)
      | some info =>
        match update_task_status env1 task.id "completed" with
        | (Except.error e, tr, env2) => (CResult.err e, tr, env2)
        | (Except.ok _, tr1, env2) =>
          match info with
          | TaskDescriptor.countdown days s d =>
            if 0 < days - 1 then
              match create_task env2 (natDecS (days - 1) ++ " " ++ s ++ " " ++ d)
                  (some (format_date (nextDay env2.now))) none "" "countdown" none none with
              | (Except.error e, tr2, env3) => (CResult.err e, tr1 ++ tr2, env3)
              | (Except.ok _, tr2, env3) =>
                (CResult.message ("Marked '" ++ task_title ++ "' complete and created '"
                    ++ (natDecS (days - 1) ++ " " ++ s ++ " " ++ d) ++ "' for tomorrow"),
                 tr1 ++ tr2, env3)
            else
              (CResult.message ("Marked '" ++ task_title ++ "' as completed"), tr1, env2)
          | TaskDescriptor.assignment _ _ _ =>
            (CResult.message ("Marked '" ++ task_title
              ++ "' complete and completed all related countdown tasks"), tr1, env2)
          | _ =>
            (CResult.message ("Marked '" ++ task_title ++ "' as completed"), tr1, env2)

/-- The date part of a stored due date (before any `T` time suffix), as
compared by the store's date-equals filter. -/
def dueDatePart (r : TaskRecord) : Option String :=
  r.due_date.map (fun d0 => String.mk (d0.data.takeWhile (fun c => c != 'T')))

/-- `get_today_tasks` (server.py lines 295-327): one query filtered to
records due today; its own `except` turns any store failure into `[]`. -/
def get_today_tasks (env : Env) :
    List (String × String × String × String) × Env :=
  if (netPop env.net).1 then
    (((env.store.filter (fun r => dueDatePart r = some (format_date env.now))).map
        (fun r => (r.id, r.title, r.status, r.task_type))),
     { env with net := (netPop env.net).2 })
  else
    ([], { env with net := (netPop env.net).2 })

/-- Tool arguments: either not a dict (triggering `ValueError`) or a JSON
object of scalars. -/
inductive Args where
  | notDict
  | dict (fields : List (String × JVal))
deriving Repr, DecidableEq

/-- `arguments[k]` lookup; `none` models the `KeyError`. -/
def Args.get? : Args → String → Option JVal
  | .notDict, _ => none
  | .dict fs, k => List.lookup k fs

/-- Text stand-in for `json.dumps(result, indent=2)` on an assignment result. -/
def AResult.render : AResult → String
  | .ok m c msg => "main_task: " ++ m ++ "; countdown_task: " ++ c ++ "; message: " ++ msg
  | .err e => "error: " ++ e

/-- Text stand-in for `json.dumps(result, indent=2)` on a completion result. -/
def CResult.render : CResult → String
  | .message m => "message: " ++ m
  | .err e => "error: " ++ e

/-- Text stand-in for `json.dumps` of one formatted task line. -/
def renderTaskLine (x : String × String × String × String) : String :=
  x.1 ++ " | " ++ x.2.1 ++ " | " ++ x.2.2.1 ++ " | " ++ x.2.2.2

/-- Text stand-in for `json.dumps` of the formatted task list. -/
def renderTaskList (xs : List (String × String × String × String)) : String :=
  String.intercalate "; " (xs.map renderTaskLine)

/-- Text stand-in for `json.dumps` of the `show_all_tasks` listing. -/
def renderAllTasks (rs : List TaskRecord) : String :=
  String.intercalate "; "
    (rs.map (fun r => r.id ++ " | " ++ r.title ++ " | " ++ r.status ++ " | "
      ++ (r.due_date.getD "") ++ " | " ++ r.task_type))

/-- The body of `call_tool`'s `try` block (server.py lines 437-500):
dispatch on the tool name; `Except.error` carries any exception
(`ValueError` on non-dict arguments, `KeyError` on a missing argument,
a store failure escaping `add_priority_task`/`show_all_tasks`, unknown tool
name) up to the handler. -/
def call_tool_inner (env : Env) (name : String) (args : Args) :
    Except String (List String) × List Mutation × Env :=
  if name = "add_assignment" then
    match args with
    | Args.notDict => (Except.error "Invalid arguments", [], env)
    | Args.dict _ =>
      match args.get? "type" with
      | none => (Except.error "'type'", [], env)
      | some tv =>
        match args.get? "subject" with
        | none => (Except.error "'subject'", [], env)
        | some sv =>
          match args.get? "description" with
          | none => (Except.error "'description'", [], env)
          | some dv =>
            match args.get? "due_date" with
            | none => (Except.error "'due_date'", [], env)
            | some ddv =>
              let out := create_assignment_with_countdown env tv.render sv.render dv.render
                ddv.render (args.get? "due_time")
              (Except.ok [AResult.render out.1], out.2.1, out.2.2)
  else if name = "add_priority_task" then
    match args with
    | Args.notDict => (Except.error "Invalid arguments", [], env)
    | Args.dict _ =>
      match args.get? "priority" with
      | none => (Except.error "'priority'", [], env)
      | some pv =>
        match args.get? "description" with
        | none => (Except.error "'description'", [], env)
        | some dv =>
          match create_task env (pv.render ++ "* " ++ dv.render) none none "" "priority"
              (some pv) none with
          | (Except.error e, tr, env1) => (Except.error e, tr, env1)
          | (Except.ok _, tr, env1) =>
            (Except.ok ["Added priority task: " ++ (pv.render ++ "* " ++ dv.render)], tr, env1)
  else if name = "complete_task" then
    match args with
    | Args.notDict => (Except.error "Invalid arguments", [], env)
    | Args.dict _ =>
      match args.get? "task_title" with
      | none => (Except.error "'task_title'", [], env)
      | some tv =>
        let out := complete_task_with_logic env tv.render
        (Except.ok [CResult.render out.1], out.2.1, out.2.2)
  else if name = "show_today_tasks" then
    let out := get_today_tasks env
    (Except.ok [renderTaskList out.1], [], out.2)
  else if name = "show_all_tasks" then
    match fetch_tasks env with
    | (Except.error e, env1) => (Except.error e, [], env1)
    | (Except.ok rs, env1) => (Except.ok [renderAllTasks rs], [], env1)
  else if name = "add_syllabus_bulk" then
    (Except.ok ["Syllabus bulk import feature - ready to implement with your syllabus format"],
     [], env)
  else
    (Except.error ("Unknown tool: " ++ name), [], env)

/-- `call_tool` (server.py lines 434-504): the dispatcher; its `except`
converts any exception escaping the body into a single `Error: ...` text. -/
def call_tool (env : Env) (name : String) (args : Args) :
    List String × List Mutation × Env :=
  match call_tool_inner env name args with
  | (Except.ok texts, tr, env1) => (texts, tr, env1)
  | (Except.error e, tr, env1) => (["Error: " ++ e], tr, env1)

/-- The successor mutations dictated by a task descriptor on completion,
following the spec's lifecycle rules (for the refinement statement of the
corrected claim C2): a countdown with `days_left - 1 > 0` spawns one
countdown page titled with the decremented count, due tomorrow, carrying no
related-task reference; every other kind spawns nothing. -/
def successorMutations (ni : Nat) (now : Date) : TaskDescriptor → List Mutation
  | .countdown n s d =>
    if 0 < n - 1 then
      [Mutation.create
        { id := pageId ni
          title := natDecS (n - 1) ++ " " ++ s ++ " " ++ d
          status := ""
          due_date := some (format_date (nextDay now))
          task_type := "countdown"
          priority := none
          related_task_id := none }]
    else []
  | _ => []

/-- `s` is a single nonempty whitespace-free token. -/
def isTokenB (s : String) : Bool :=
  !s.data.isEmpty && s.data.all (fun c => !pyIsSpace c)

/-- `s` has no trailing whitespace (vacuously true when empty). -/
def noTrailB (s : String) : Bool :=
  (s.data.getLast?.map (fun c => !pyIsSpace c)).getD true

/-! ## Helper lemmas: decimal digits -/

theorem digitChar_isDigit {d : Nat} (h : d < 10) : (digitChar d).isDigit = true := by
  interval_cases d <;> decide

theorem natDecAux_irrel : ∀ n f g, n < f → n < g → natDecAux f n = natDecAux g n := by
  intro n
  induction n using Nat.strong_induction_on with
  | _ n ih =>
    intro f g hf hg
    match f, g with
    | f' + 1, g' + 1 =>
      by_cases h10 : n < 10
      · simp [natDecAux, h10]
      · simp only [natDecAux, h10, if_false]
        have hlt : n / 10 < n := Nat.div_lt_self (by omega) (by omega)
        rw [ih (n / 10) hlt f' g' (by omega) (by omega)]

theorem natDec_unfold (n : Nat) :
    natDec n = if n < 10 then [digitChar n] else natDec (n / 10) ++ [digitChar (n % 10)] := by
  by_cases h10 : n < 10
  · simp [natDec, natDecAux, h10]
  · have hlt : n / 10 < n := Nat.div_lt_self (by omega) (by omega)
    have l : natDec n = natDecAux n (n / 10) ++ [digitChar (n % 10)] := by
      simp [natDec, natDecAux, h10]
    rw [l, if_neg h10]
    unfold natDec
    rw [natDecAux_irrel (n / 10) n (n / 10 + 1) hlt (Nat.lt_succ_self _)]

theorem natDec_all_digit : ∀ n, ∀ c ∈ natDec n, c.isDigit = true := by
  intro n
  induction n using Nat.strong_induction_on with
  | _ n ih =>
    intro c hc
    rw [natDec_unfold] at hc
    by_cases h10 : n < 10
    · simp [h10] at hc
      subst hc
      exact digitChar_isDigit h10
    · simp only [h10, if_false, List.mem_append, List.mem_singleton] at hc
      rcases hc with hc | hc
      · exact ih (n / 10) (Nat.div_lt_self (by omega) (by omega)) c hc
      · subst hc
        exact digitChar_isDigit (Nat.mod_lt _ (by omega))

theorem natDec_ne_nil (n : Nat) : natDec n ≠ [] := by
  rw [natDec_unfold]
  by_cases h10 : n < 10 <;> simp [h10]

theorem decVal_natDec : ∀ n, decVal (natDec n) = n := by
  intro n
  induction n using Nat.strong_induction_on with
  | _ n ih =>
    rw [natDec_unfold]
    by_cases h10 : n < 10
    · simp only [h10, if_true]
      simp only [decVal, List.foldl]
      have : (digitChar n).toNat = 48 + n := by
        interval_cases n <;> decide
      omega
    · simp only [h10, if_false, decVal, List.foldl_append, List.foldl]
      have h1 : decVal (natDec (n / 10)) = n / 10 :=
        ih (n / 10) (Nat.div_lt_self (by omega) (by omega))
      simp only [decVal] at h1
      rw [h1]
      have h2 : (digitChar (n % 10)).toNat = 48 + n % 10 := by
        have : n % 10 < 10 := Nat.mod_lt _ (by omega)
        interval_cases h : (n % 10) <;> simp [h] <;> decide
      omega

theorem isDigit_not_space {c : Char} (h : c.isDigit = true) : pyIsSpace c = false := by
  simp only [pyIsSpace, Bool.or_eq_false_iff, decide_eq_false_iff_not]
  refine ⟨⟨⟨⟨⟨?_, ?_⟩, ?_⟩, ?_⟩, ?_⟩, ?_⟩ <;> rintro rfl <;> simp [Char.isDigit] at h


/-! ## Helper lemmas: stripping and splitting -/

theorem dropWhile_of_all_neg {p : Char → Bool} {l : List Char}
    (h : ∀ c ∈ l, p c = false) : l.dropWhile p = l := by
  cases l with
  | nil => rfl
  | cons c t => simp [List.dropWhile_cons, h c (by simp)]

theorem dropTrailing_nil : dropTrailing [] = [] := rfl

theorem dropTrailing_eq_nil_iff {l : List Char} :
    dropTrailing l = [] ↔ ∀ c ∈ l, pyIsSpace c = true := by
  simp [dropTrailing, List.reverse_eq_nil_iff, List.dropWhile_eq_nil_iff]

theorem dropTrailing_append (l₁ l₂ : List Char) :
    dropTrailing (l₁ ++ l₂) =
      if dropTrailing l₂ = [] then dropTrailing l₁ else l₁ ++ dropTrailing l₂ := by
  simp only [dropTrailing, List.reverse_append, List.dropWhile_append]
  by_cases h : l₂.reverse.dropWhile pyIsSpace = []
  · simp [h, List.isEmpty_iff]
  · have h' : ¬((l₂.reverse.dropWhile pyIsSpace).reverse = []) := by
      simpa [List.reverse_eq_nil_iff] using h
    simp [h, h', List.isEmpty_iff, List.reverse_append]

theorem dropTrailing_of_all_nonspace {l : List Char}
    (h : ∀ c ∈ l, pyIsSpace c = false) : dropTrailing l = l := by
  simp only [dropTrailing]
  rw [dropWhile_of_all_neg (by intro c hc; exact h c (by simpa using hc))]
  exact l.reverse_reverse

theorem dropTrailing_cons {c : Char} (l : List Char) (hc : pyIsSpace c = false) :
    dropTrailing (c :: l) = c :: dropTrailing l := by
  have : (c :: l) = [c] ++ l := rfl
  rw [this, dropTrailing_append]
  by_cases h : dropTrailing l = []
  · simp [h, dropTrailing_of_all_nonspace (l := [c]) (by simpa using hc)]
  · simp [h]

theorem stripList_cons_nonspace {c : Char} {l : List Char} (hc : pyIsSpace c = false) :
    stripList (c :: l) = dropTrailing (c :: l) := by
  simp [stripList, List.dropWhile_cons, hc]

theorem stripList_cons_space {c : Char} {l : List Char} (hc : pyIsSpace c = true) :
    stripList (c :: l) = stripList l := by
  simp [stripList, List.dropWhile_cons, hc]

theorem dropWhile_dropTrailing_comm (l : List Char) :
    (dropTrailing l).dropWhile pyIsSpace = dropTrailing (l.dropWhile pyIsSpace) := by
  induction l with
  | nil => rfl
  | cons c t ih =>
    by_cases hc : pyIsSpace c
    · rw [List.dropWhile_cons]
      simp only [hc, if_true]
      by_cases ht : dropTrailing t = []
      · have hall : ∀ x ∈ t, pyIsSpace x = true := dropTrailing_eq_nil_iff.mp ht
        have : dropTrailing (c :: t) = [] := by
          apply dropTrailing_eq_nil_iff.mpr
          intro x hx
          rcases List.mem_cons.mp hx with rfl | hx
          · exact hc
          · exact hall x hx
        rw [this]
        have : t.dropWhile pyIsSpace = [] := List.dropWhile_eq_nil_iff.mpr hall
        rw [this]
        rfl
      · have h1 : dropTrailing (c :: t) = c :: dropTrailing t := by
          have : (c :: t) = [c] ++ t := rfl
          rw [this, dropTrailing_append]
          simp [ht]
        rw [h1, List.dropWhile_cons]
        simp only [hc, if_true]
        exact ih
    · have hc' : pyIsSpace c = false := by simpa using hc
      rw [dropTrailing_cons t hc']
      rw [List.dropWhile_cons, List.dropWhile_cons]
      simp only [hc', Bool.false_eq_true, if_false]
      rw [dropTrailing_cons t hc']

theorem dropWhile_idem {p : Char → Bool} (l : List Char) :
    (l.dropWhile p).dropWhile p = l.dropWhile p := by
  induction l with
  | nil => rfl
  | cons c t ih =>
    rw [List.dropWhile_cons]
    by_cases hc : p c
    · simp [hc, ih]
    · simp [List.dropWhile_cons, hc]

theorem dropTrailing_idem (l : List Char) :
    dropTrailing (dropTrailing l) = dropTrailing l := by
  simp only [dropTrailing, List.reverse_reverse]
  rw [dropWhile_idem]

theorem stripList_dropTrailing (l : List Char) :
    stripList (dropTrailing l) = stripList l := by
  simp only [stripList]
  rw [dropWhile_dropTrailing_comm, dropTrailing_idem]


theorem pySplit2List_no_sep {sep : Char} :
    ∀ (t : List Char), (∀ c ∈ t, c ≠ sep) → ∀ n, pySplit2List sep t n = (t, []) := by
  intro t
  induction t with
  | nil => intro _ n; cases n <;> rfl
  | cons c t ih =>
    intro h n
    cases n with
    | zero => rfl
    | succ n =>
      have hc : ¬(c = sep) := h c (by simp)
      simp only [pySplit2List, hc, if_false]
      rw [ih (fun x hx => h x (by simp [hx])) (n + 1)]

theorem pySplit2List_token {sep : Char} :
    ∀ (t : List Char), (∀ c ∈ t, c ≠ sep) → ∀ (r : List Char) (n : Nat),
      pySplit2List sep (t ++ sep :: r) (n + 1) =
        (t, (pySplit2List sep r n).1 :: (pySplit2List sep r n).2) := by
  intro t
  induction t with
  | nil =>
    intro _ r n
    simp [pySplit2List]
  | cons c t ih =>
    intro h r n
    have hc : ¬(c = sep) := h c (by simp)
    simp only [List.cons_append, pySplit2List, hc, if_false, List.append_eq]
    rw [ih (fun x hx => h x (by simp [hx])) r n]

theorem takeWhile_of_all {p : Char → Bool} {l : List Char}
    (h : ∀ c ∈ l, p c = true) : l.takeWhile p = l := by
  induction l with
  | nil => rfl
  | cons c t ih =>
    rw [List.takeWhile_cons]
    simp [h c (by simp), ih (fun x hx => h x (by simp [hx]))]

theorem takeWhile_append_of_all {p : Char → Bool} {l₁ l₂ : List Char}
    (h : ∀ c ∈ l₁, p c = true) :
    (l₁ ++ l₂).takeWhile p = l₁ ++ l₂.takeWhile p := by
  rw [List.takeWhile_append]
  simp [takeWhile_of_all h]

theorem firstWsToken_token {t rest : List Char} (htne : t ≠ [])
    (ht : ∀ c ∈ t, pyIsSpace c = false) :
    firstWsToken (t ++ ' ' :: rest) = some t := by
  match t, htne with
  | c :: t', _ =>
    have hc : pyIsSpace c = false := ht c (by simp)
    simp only [firstWsToken, List.cons_append, List.dropWhile_cons, hc, Bool.false_eq_true,
      if_false]
    congr 1
    have : (c :: (t' ++ ' ' :: rest)) = (c :: t') ++ ' ' :: rest := by simp
    rw [this, takeWhile_append_of_all (by intro x hx; simp [ht x hx])]
    simp [List.takeWhile_cons, pyIsSpace]

theorem firstWsToken_all_nonspace {t : List Char} (htne : t ≠ [])
    (ht : ∀ c ∈ t, pyIsSpace c = false) :
    firstWsToken t = some t := by
  match t, htne with
  | c :: t', _ =>
    have hc : pyIsSpace c = false := ht c (by simp)
    simp only [firstWsToken, List.dropWhile_cons, hc, Bool.false_eq_true, if_false]
    congr 1
    exact takeWhile_of_all (by intro x hx; simp [ht x hx])

theorem listIsDigit_natDec (n : Nat) : listIsDigit (natDec n) = true := by
  have h1 := natDec_ne_nil n
  simp [listIsDigit, List.isEmpty_iff, h1, List.all_eq_true]
  exact natDec_all_digit n

theorem natDec_all_nonspace (n : Nat) : ∀ c ∈ natDec n, pyIsSpace c = false :=
  fun c hc => isDigit_not_space (natDec_all_digit n c hc)

theorem stripList_natDec (n : Nat) : stripList (natDec n) = natDec n := by
  simp only [stripList]
  rw [dropWhile_of_all_neg (natDec_all_nonspace n),
    dropTrailing_of_all_nonspace (natDec_all_nonspace n)]

theorem pyInt_natDec (n : Nat) : pyInt (natDec n) = some n := by
  simp [pyInt, stripList_natDec, listIsDigit_natDec, decVal_natDec]


theorem dropTrailing_of_getLast_nonspace {l : List Char} {c : Char}
    (h : l.getLast? = some c) (hc : pyIsSpace c = false) : dropTrailing l = l := by
  have hh : l.reverse.head? = some c := by rw [List.head?_reverse]; exact h
  cases hr : l.reverse with
  | nil => rw [hr] at hh; simp at hh
  | cons x xs =>
    rw [hr] at hh
    simp only [List.head?_cons, Option.some.injEq] at hh
    subst hh
    simp only [dropTrailing, hr, List.dropWhile_cons, hc, Bool.false_eq_true, if_false]
    rw [← hr, List.reverse_reverse]

theorem pySplit2List_zero {sep : Char} (cs : List Char) : pySplit2List sep cs 0 = (cs, []) := by
  cases cs <;> rfl

theorem isTokenB_iff {s : String} :
    isTokenB s = true ↔ s.data ≠ [] ∧ ∀ c ∈ s.data, pyIsSpace c = false := by
  simp [isTokenB, List.isEmpty_iff, List.all_eq_true]

theorem noTrailB_iff {d : String} :
    noTrailB d = true ↔ ∀ c, d.data.getLast? = some c → pyIsSpace c = false := by
  simp only [noTrailB]
  cases d.data.getLast? <;> simp

theorem nonspace_ne_space {c : Char} (h : pyIsSpace c = false) : ¬ c = ' ' := by
  intro hc; subst hc; simp [pyIsSpace] at h

/-- Stripping a title of the shape `a ++ " " ++ s ++ " " ++ d` with
whitespace-free `a`, `s` and no trailing whitespace in `d`. -/
theorem stripList_title (a s d : List Char) (ha : a ≠ [])
    (hans : ∀ c ∈ a, pyIsSpace c = false) (hs : s ≠ [])
    (hsns : ∀ c ∈ s, pyIsSpace c = false)
    (hd : ∀ c, d.getLast? = some c → pyIsSpace c = false) :
    stripList (a ++ ' ' :: (s ++ ' ' :: d)) =
      a ++ ' ' :: (s ++ if d = [] then [] else ' ' :: d) := by
  match a, ha with
  | a0 :: a', _ =>
    have ha0 : pyIsSpace a0 = false := hans a0 (by simp)
    have hstep : stripList ((a0 :: a') ++ ' ' :: (s ++ ' ' :: d)) =
        dropTrailing ((a0 :: a') ++ ' ' :: (s ++ ' ' :: d)) := by
      simp [stripList, List.dropWhile_cons, ha0]
    rw [hstep]
    by_cases hdn : d = []
    · subst hdn
      have e1 : (a0 :: a') ++ ' ' :: (s ++ [' ']) = (((a0 :: a') ++ ' ' :: s) ++ [' ']) := by
        simp
      rw [e1, dropTrailing_append]
      have e2 : dropTrailing [' '] = [] := by decide
      rw [if_pos e2]
      have e3 : (a0 :: a') ++ ' ' :: s = (((a0 :: a') ++ [' ']) ++ s) := by simp
      rw [e3, dropTrailing_append]
      have e4 : dropTrailing s = s := dropTrailing_of_all_nonspace hsns
      rw [e4, if_neg hs]
      simp
    · have hlast : ∃ c, d.getLast? = some c := by
        cases hg : d.getLast? with
        | none => exact absurd (List.getLast?_eq_none_iff.mp hg) hdn
        | some c => exact ⟨c, rfl⟩
      obtain ⟨c, hc⟩ := hlast
      have : ((a0 :: a') ++ ' ' :: (s ++ ' ' :: d)).getLast? = some c := by
        have h1 : (' ' :: (s ++ ' ' :: d)).getLast? = some c := by
          have h2 : (' ' :: (s ++ ' ' :: d)) = ([' '] ++ s ++ [' ']) ++ d := by simp
          rw [h2, List.getLast?_append, hc]
          rfl
        rw [List.getLast?_append, h1]
        rfl
      rw [dropTrailing_of_getLast_nonspace this (hd c hc), if_neg hdn]

/-- Splitting `a ++ " " ++ s ++ " " ++ d` on a single space with maxsplit 2. -/
theorem split2_title (a s d : List Char) (haw : ∀ c ∈ a, pyIsSpace c = false)
    (hsw : ∀ c ∈ s, pyIsSpace c = false) :
    pySplit2 ' ' 2 (a ++ ' ' :: (s ++ ' ' :: d)) = (a, [s, d]) := by
  simp only [pySplit2]
  rw [pySplit2List_token a (fun c hc => nonspace_ne_space (haw c hc)) _ 1,
    pySplit2List_token s (fun c hc => nonspace_ne_space (hsw c hc)) _ 0,
    pySplit2List_zero]

/-- Splitting `a ++ " " ++ s` (the title with an empty description field). -/
theorem split2_title_short (a s : List Char) (haw : ∀ c ∈ a, pyIsSpace c = false)
    (hsw : ∀ c ∈ s, pyIsSpace c = false) :
    pySplit2 ' ' 2 (a ++ ' ' :: s) = (a, [s]) := by
  simp only [pySplit2]
  rw [pySplit2List_token a (fun c hc => nonspace_ne_space (haw c hc)) _ 1,
    pySplit2List_no_sep s (fun c hc => nonspace_ne_space (hsw c hc)) 1]


set_option maxHeartbeats 2000000 in
theorem parse_title_H (s d : String) (hs : isTokenB s = true) (hd : noTrailB d = true) :
    parse_task_type ("H " ++ s ++ " " ++ d) = some (.assignment "H" s d) := by
  obtain ⟨hsne, hsns⟩ := isTokenB_iff.mp hs
  have hdl := noTrailB_iff.mp hd
  obtain ⟨sl⟩ := s
  obtain ⟨dl⟩ := d
  have hdata : ("H " ++ String.mk sl ++ " " ++ String.mk dl).data =
      ['H'] ++ ' ' :: (sl ++ ' ' :: dl) := by
    simp [String.data_append]
  simp only [parse_task_type, hdata]
  rw [stripList_title ['H'] sl dl (by simp) (by decide) hsne hsns hdl]
  by_cases hdn : dl = []
  · subst hdn
    have e : (if ([] : List Char) = [] then [] else ' ' :: ([] : List Char)) = [] := rfl
    rw [e, List.append_nil]
    rw [split2_title_short ['H'] sl (by decide) hsns]
    simp [List.isPrefixOf]
  · rw [if_neg hdn]
    rw [split2_title ['H'] sl dl (by decide) hsns]
    simp [List.isPrefixOf]

set_option maxHeartbeats 2000000 in
theorem parse_title_HTN (s d : String) (hs : isTokenB s = true) (hd : noTrailB d = true) :
    parse_task_type ("HTN " ++ s ++ " " ++ d) = some (.assignment "HTN" s d) := by
  obtain ⟨hsne, hsns⟩ := isTokenB_iff.mp hs
  have hdl := noTrailB_iff.mp hd
  obtain ⟨sl⟩ := s
  obtain ⟨dl⟩ := d
  have hdata : ("HTN " ++ String.mk sl ++ " " ++ String.mk dl).data =
      ['H', 'T', 'N'] ++ ' ' :: (sl ++ ' ' :: dl) := by
    simp [String.data_append]
  simp only [parse_task_type, hdata]
  rw [stripList_title ['H', 'T', 'N'] sl dl (by simp) (by decide) hsne hsns hdl]
  by_cases hdn : dl = []
  · subst hdn
    have e : (if ([] : List Char) = [] then [] else ' ' :: ([] : List Char)) = [] := rfl
    rw [e, List.append_nil]
    rw [split2_title_short ['H', 'T', 'N'] sl (by decide) hsns]
    simp [List.isPrefixOf]
  · rw [if_neg hdn]
    rw [split2_title ['H', 'T', 'N'] sl dl (by decide) hsns]
    simp [List.isPrefixOf]

set_option maxHeartbeats 2000000 in
theorem parse_title_Q (s d : String) (hs : isTokenB s = true) (hd : noTrailB d = true) :
    parse_task_type ("Q " ++ s ++ " " ++ d) = some (.assignment "Q" s d) := by
  obtain ⟨hsne, hsns⟩ := isTokenB_iff.mp hs
  have hdl := noTrailB_iff.mp hd
  obtain ⟨sl⟩ := s
  obtain ⟨dl⟩ := d
  have hdata : ("Q " ++ String.mk sl ++ " " ++ String.mk dl).data =
      ['Q'] ++ ' ' :: (sl ++ ' ' :: dl) := by
    simp [String.data_append]
  simp only [parse_task_type, hdata]
  rw [stripList_title ['Q'] sl dl (by simp) (by decide) hsne hsns hdl]
  by_cases hdn : dl = []
  · subst hdn
    have e : (if ([] : List Char) = [] then [] else ' ' :: ([] : List Char)) = [] := rfl
    rw [e, List.append_nil]
    rw [split2_title_short ['Q'] sl (by decide) hsns]
    simp [List.isPrefixOf]
  · rw [if_neg hdn]
    rw [split2_title ['Q'] sl dl (by decide) hsns]
    simp [List.isPrefixOf]

theorem natDec_head (n : Nat) : ∃ c t, natDec n = c :: t ∧ c.isDigit = true := by
  cases h : natDec n with
  | nil => exact absurd h (natDec_ne_nil n)
  | cons c t => exact ⟨c, t, rfl, natDec_all_digit n c (h ▸ by simp)⟩

theorem isPrefixOf_false_of_head_digit {pre0 : Char} {pre : List Char} {c : Char}
    {t : List Char} (hc : c.isDigit = true) (hne : pre0.isDigit = false) :
    (pre0 :: pre).isPrefixOf (c :: t) = false := by
  have hb : (pre0 == c) = false := by
    apply beq_eq_false_iff_ne.mpr
    intro h
    subst h
    rw [hne] at hc
    exact Bool.noConfusion hc
  simp [List.isPrefixOf, hb]

theorem firstWsToken_cons_nonspace {c : Char} {rest : List Char}
    (hc : pyIsSpace c = false) :
    firstWsToken (c :: rest) = some ((c :: rest).takeWhile (fun x => !pyIsSpace x)) := by
  simp [firstWsToken, List.dropWhile_cons, hc]

theorem firstWsToken_cons_token {c : Char} {t rest : List Char}
    (hc : pyIsSpace c = false) (ht : ∀ x ∈ t, pyIsSpace x = false) :
    firstWsToken (c :: (t ++ ' ' :: rest)) = some (c :: t) := by
  rw [← List.cons_append]
  exact firstWsToken_token (by simp)
    (by intro x hx; rcases List.mem_cons.mp hx with rfl | hx; exact hc; exact ht x hx)

theorem split2_cons_title (c : Char) (t s d : List Char)
    (hcw : pyIsSpace c = false) (htw : ∀ x ∈ t, pyIsSpace x = false)
    (hsw : ∀ x ∈ s, pyIsSpace x = false) :
    pySplit2 ' ' 2 (c :: (t ++ ' ' :: (s ++ ' ' :: d))) = (c :: t, [s, d]) := by
  rw [← List.cons_append]
  exact split2_title (c :: t) s d
    (by intro x hx; rcases List.mem_cons.mp hx with rfl | hx; exact hcw; exact htw x hx) hsw

theorem split2_cons_title_short (c : Char) (t s : List Char)
    (hcw : pyIsSpace c = false) (htw : ∀ x ∈ t, pyIsSpace x = false)
    (hsw : ∀ x ∈ s, pyIsSpace x = false) :
    pySplit2 ' ' 2 (c :: (t ++ ' ' :: s)) = (c :: t, [s]) := by
  rw [← List.cons_append]
  exact split2_title_short (c :: t) s
    (by intro x hx; rcases List.mem_cons.mp hx with rfl | hx; exact hcw; exact htw x hx) hsw

set_option maxHeartbeats 2000000 in
theorem parse_title_countdown (n : Nat) (s d : String) (hs : isTokenB s = true)
    (hd : noTrailB d = true)
    (hstar : (stripList (natDecS n ++ " " ++ s ++ " " ++ d).data).getLast? ≠ some '*') :
    parse_task_type (natDecS n ++ " " ++ s ++ " " ++ d) = some (.countdown n s d) := by
  obtain ⟨hsne, hsns⟩ := isTokenB_iff.mp hs
  have hdl := noTrailB_iff.mp hd
  obtain ⟨sl⟩ := s
  obtain ⟨dl⟩ := d
  have hdata : (natDecS n ++ " " ++ String.mk sl ++ " " ++ String.mk dl).data =
      natDec n ++ ' ' :: (sl ++ ' ' :: dl) := by
    simp [String.data_append, natDecS]
  have hstrip := stripList_title (natDec n) sl dl (natDec_ne_nil n)
    (natDec_all_nonspace n) hsne hsns hdl
  rw [hdata, hstrip] at hstar
  unfold parse_task_type
  rw [hdata, hstrip]
  obtain ⟨c, t, he, hcdig⟩ := natDec_head n
  rw [he] at hstar ⊢
  have hc0 : pyIsSpace c = false := isDigit_not_space hcdig
  have ht0 : ∀ x ∈ t, pyIsSpace x = false := by
    intro x hx
    exact (he ▸ natDec_all_nonspace n) x (by simp [hx])
  simp only [show "H ".data = ['H', ' '] from rfl,
    show "HTN ".data = ['H', 'T', 'N', ' '] from rfl,
    show "Q ".data = ['Q', ' '] from rfl, List.cons_append] at hstar ⊢
  have hg1 : List.isPrefixOf ['H', ' ']
      (c :: (t ++ ' ' :: (sl ++ if dl = [] then [] else ' ' :: dl))) = false :=
    isPrefixOf_false_of_head_digit hcdig (by decide)
  have hg2 : List.isPrefixOf ['H', 'T', 'N', ' ']
      (c :: (t ++ ' ' :: (sl ++ if dl = [] then [] else ' ' :: dl))) = false :=
    isPrefixOf_false_of_head_digit hcdig (by decide)
  have hg3 : List.isPrefixOf ['Q', ' ']
      (c :: (t ++ ' ' :: (sl ++ if dl = [] then [] else ' ' :: dl))) = false :=
    isPrefixOf_false_of_head_digit hcdig (by decide)
  simp only [hg1, hg2, hg3, Bool.or_self, Bool.or_false, Bool.false_eq_true, if_false]
  rw [firstWsToken_cons_token hc0 ht0]
  have hdig : listIsDigit (c :: t) = true := he ▸ listIsDigit_natDec n
  have hb : ((c :: (t ++ ' ' :: (sl ++ if dl = [] then [] else ' ' :: dl))).getLast?
      == some '*') = false :=
    beq_eq_false_iff_ne.mpr hstar
  simp only [hdig, hb, Bool.not_false, Bool.and_self, Bool.true_and, if_true]
  by_cases hdn : dl = []
  · subst hdn
    have e : (if ([] : List Char) = [] then [] else ' ' :: ([] : List Char)) = [] := rfl
    rw [e, List.append_nil]
    rw [split2_cons_title_short c t sl hc0 ht0 hsns]
    rw [← he, pyInt_natDec]
    simp
  · rw [if_neg hdn]
    rw [split2_cons_title c t sl dl hc0 ht0 hsns]
    rw [← he, pyInt_natDec]
    simp

theorem split2star_cons (c : Char) (t R : List Char)
    (hnostar : ∀ x ∈ c :: t, ¬ x = '*') :
    pySplit2 '*' 1 (c :: (t ++ '*' :: R)) = (c :: t, [R]) := by
  rw [← List.cons_append]
  simp only [pySplit2]
  rw [pySplit2List_token (c :: t) hnostar R 0, pySplit2List_zero]

theorem digit_ne_star {x : Char} (hx : x.isDigit = true) : ¬ x = '*' := by
  intro h; subst h; simp [Char.isDigit] at hx

set_option maxHeartbeats 2000000 in
theorem parse_title_priority (p : Nat) (dsc : String) :
    parse_task_type (natDecS p ++ "* " ++ dsc) = some (.priority p (pyStrip dsc)) := by
  obtain ⟨el⟩ := dsc
  have hdata : (natDecS p ++ "* " ++ String.mk el).data = natDec p ++ '*' :: ' ' :: el := by
    simp [String.data_append, natDecS]
  obtain ⟨c, t, he, hcdig⟩ := natDec_head p
  have hc0 : pyIsSpace c = false := isDigit_not_space hcdig
  have ht0 : ∀ x ∈ t, pyIsSpace x = false := by
    intro x hx
    exact (he ▸ natDec_all_nonspace p) x (by simp [hx])
  have hstrip : stripList (natDec p ++ '*' :: ' ' :: el) =
      natDec p ++ '*' :: dropTrailing (' ' :: el) := by
    have hw : List.dropWhile pyIsSpace (natDec p ++ '*' :: ' ' :: el) =
        natDec p ++ '*' :: ' ' :: el := by
      rw [he, List.cons_append, List.dropWhile_cons]
      simp [hc0]
    rw [stripList, hw]
    have e : natDec p ++ '*' :: ' ' :: el = (natDec p ++ ['*']) ++ (' ' :: el) := by simp
    rw [e, dropTrailing_append]
    by_cases hR : dropTrailing (' ' :: el) = []
    · rw [if_pos hR, hR]
      have hl : (natDec p ++ ['*']).getLast? = some '*' := by
        rw [List.getLast?_append]
        rfl
      rw [dropTrailing_of_getLast_nonspace hl (by decide)]
    · rw [if_neg hR]
      simp
  unfold parse_task_type
  rw [hdata, hstrip]
  rw [he]
  simp only [show "H ".data = ['H', ' '] from rfl,
    show "HTN ".data = ['H', 'T', 'N', ' '] from rfl,
    show "Q ".data = ['Q', ' '] from rfl, List.cons_append]
  have hg1 : List.isPrefixOf ['H', ' ']
      (c :: (t ++ '*' :: dropTrailing (' ' :: el))) = false :=
    isPrefixOf_false_of_head_digit hcdig (by decide)
  have hg2 : List.isPrefixOf ['H', 'T', 'N', ' ']
      (c :: (t ++ '*' :: dropTrailing (' ' :: el))) = false :=
    isPrefixOf_false_of_head_digit hcdig (by decide)
  have hg3 : List.isPrefixOf ['Q', ' ']
      (c :: (t ++ '*' :: dropTrailing (' ' :: el))) = false :=
    isPrefixOf_false_of_head_digit hcdig (by decide)
  simp only [hg1, hg2, hg3, Bool.or_self, Bool.or_false, Bool.false_eq_true, if_false]
  rw [firstWsToken_cons_nonspace hc0]
  have htok : List.takeWhile (fun x => !pyIsSpace x)
      (c :: (t ++ '*' :: dropTrailing (' ' :: el))) =
      c :: (t ++ '*' :: List.takeWhile (fun x => !pyIsSpace x) (dropTrailing (' ' :: el))) := by
    rw [List.takeWhile_cons]
    simp only [hc0, Bool.not_false, if_true]
    rw [takeWhile_append_of_all (by intro x hx; simp [ht0 x hx])]
    rw [List.takeWhile_cons]
    simp [pyIsSpace]
  rw [htok]
  have hgd : listIsDigit
      (c :: (t ++ '*' :: List.takeWhile (fun x => !pyIsSpace x) (dropTrailing (' ' :: el)))) = false := by
    simp [listIsDigit, List.all_append]
  simp only [hgd, Bool.false_and, Bool.false_eq_true, if_false]
  have hcont : (c :: (t ++ '*' :: dropTrailing (' ' :: el))).contains '*' = true := by
    simp [List.contains_iff_exists_mem_beq]
  have hbne : (c != '*') = true := by
    simp [bne, beq_eq_false_iff_ne.mpr (digit_ne_star hcdig)]
  have htake : List.takeWhile (fun x => x != '*')
      (c :: (t ++ '*' :: dropTrailing (' ' :: el))) = c :: t := by
    rw [List.takeWhile_cons]
    simp only [hbne, if_true]
    rw [takeWhile_append_of_all (by
      intro x hx
      simp [bne, beq_eq_false_iff_ne.mpr (digit_ne_star (natDec_all_digit p x (he ▸ by simp [hx])))])]
    rw [List.takeWhile_cons]
    simp
  rw [htake, ← he, stripList_natDec, listIsDigit_natDec]
  simp only [hcont, Bool.and_self, Bool.true_and, Bool.and_true, if_true]
  have hnostar : ∀ x ∈ c :: t, ¬ x = '*' := by
    intro x hx
    exact digit_ne_star (natDec_all_digit p x (by rw [he]; exact hx))
  rw [split2star_cons c t (dropTrailing (' ' :: el)) hnostar]
  rw [show ((c :: t, [dropTrailing (' ' :: el)]).1) = c :: t from rfl, ← he,
    stripList_natDec, pyInt_natDec]
  simp only [List.getD_cons_zero, Option.some.injEq]
  have hfin : stripList (dropTrailing (' ' :: el)) = stripList el := by
    rw [stripList_dropTrailing, stripList_cons_space (by decide)]
  rw [hfin]
  rfl

theorem format_date_ne_empty (D : Date) : ¬ format_date D = "" := by
  intro h
  have h2 := congrArg String.data h
  simp [format_date] at h2

theorem pageId_ne_empty (n : Nat) : ¬ pageId n = "" := by
  intro h
  have h2 := congrArg String.data h
  simp [pageId, String.data_append, natDecS, natDec_ne_nil] at h2

theorem date_strptime_ne_empty {dd : String} {D : Date}
    (h : date_strptime dd = some D) : ¬ dd = "" := by
  intro he
  subst he
  rw [show date_strptime "" = none from rfl] at h
  exact Option.noConfusion h

/-- C6: when the title lookup of `complete_task` matches no record, the
operation returns the structured not-found error dict and performs zero store
mutations (empty trace, environment unchanged). -/
theorem complete_task_not_found (st : List TaskRecord) (ni : Nat) (now : Date) (t : String)
    (hf : findMatches st t = []) :
    complete_task_with_logic ⟨st, ni, [], now⟩ t =
      (CResult.err ("Task '" ++ t ++ "' not found"), [], ⟨st, ni, [], now⟩) := by
  simp [complete_task_with_logic, find_tasks_by_title, netPop, hf]

/-- C7: when the due date of an assignment creation cannot be parsed as a
`YYYY-MM-DD` calendar date, the operation fails with a validation error dict
and no store mutation is attempted (empty trace, environment unchanged). -/
theorem create_assignment_bad_date (st : List TaskRecord) (ni : Nat) (now : Date)
    (ty s d dd : String) (dt : Option JVal) (hbad : date_strptime dd = none) :
    ∃ m, create_assignment_with_countdown ⟨st, ni, [], now⟩ ty s d dd dt =
      (AResult.err m, [], ⟨st, ni, [], now⟩) := by
  exact ⟨"time data '" ++ dd ++ "' does not match format '%Y-%m-%d'", by
    simp [create_assignment_with_countdown, hbad]⟩

/-- C3 (amended): on-create(assignment) with type `H`/`HTN`/`Q`, a parseable
due date `D`, and `D` minus five days still a representable datetime (at or
after `datetime.min` = 0001-01-01) issues exactly two creates, anchor first:
the anchor carries the uppercased title, due date `D` (with any provided time
suffix), type `assignment` and status `"due"`; the countdown carries the
lowercased `5 {s} {d}` title, due date exactly `D` minus five calendar days,
type `countdown`, and `related_task_id` equal to the anchor's assigned id.
(For `D` within the first five days of year 1 only the anchor create is
issued: the subtraction overflows after the anchor create and the operation
returns an error dict — see the counterexample.) -/
theorem create_assignment_plan (st : List TaskRecord) (ni : Nat) (now : Date)
    (ty s d dd : String) (dt : Option JVal) (D C : Date)
    (hat : ty = "H" ∨ ty = "HTN" ∨ ty = "Q")
    (hD : date_strptime dd = some D)
    (hC : timedelta_sub D 5 = some C) :
    (create_assignment_with_countdown ⟨st, ni, [], now⟩ ty s d dd dt).2.1 =
      [Mutation.create
        { id := pageId ni
          title := ty ++ " " ++ pyUpper s ++ " " ++ pyUpper d
          status := "due"
          due_date := some (dd ++
            (match dt with
             | some tv => if jvalTruthy tv then "T" ++ tv.render ++ ":00" else ""
             | none => ""))
          task_type := "assignment"
          priority := none
          related_task_id := none },
       Mutation.create
        { id := pageId (ni + 1)
          title := "5 " ++ pyLower s ++ " " ++ pyLower d
          status := ""
          due_date := some (format_date C)
          task_type := "countdown"
          priority := none
          related_task_id := some (pageId ni) }] := by
  have hdd := date_strptime_ne_empty hD
  rcases hat with rfl | rfl | rfl <;>
    simp [create_assignment_with_countdown, hD, hC, create_task, mkRecord, netPop, hdd,
      format_date_ne_empty, pageId_ne_empty]

/-- C4: on-complete of a title parsing as countdown with `days_left = n`,
the matched record's status is updated to `completed`; when `n - 1 > 0`
exactly one additional create is issued, titled `{n-1} {subject}
{description}`, due the current date plus one day, type `countdown`, with no
`related_task_id`; when `n - 1 ≤ 0` no record is created. -/
theorem complete_countdown_plan (st : List TaskRecord) (ni : Nat) (now : Date)
    (t s d : String) (n : Nat) (r : TaskRecord) (rs : List TaskRecord)
    (hp : parse_task_type t = some (.countdown n s d))
    (hf : findMatches st t = r :: rs) :
    (complete_task_with_logic ⟨st, ni, [], now⟩ t).2.1 =
      Mutation.update r.id "completed" ::
        (if 0 < n - 1 then
          [Mutation.create
            { id := pageId ni
              title := natDecS (n - 1) ++ " " ++ s ++ " " ++ d
              status := ""
              due_date := some (format_date (nextDay now))
              task_type := "countdown"
              priority := none
              related_task_id := none }]
         else []) := by
  by_cases hn : 0 < n - 1 <;>
    simp [complete_task_with_logic, find_tasks_by_title, netPop, hf, hp, hn,
      update_task_status, create_task, mkRecord, format_date_ne_empty]

/-- C8: on-complete of a title parsing as assignment, exactly one store
mutation is performed — the matched record's status update to `completed` —
and no countdown or other record is mutated or created (the declared cascade
completion is not implemented). -/
theorem complete_assignment_single_update (st : List TaskRecord) (ni : Nat) (now : Date)
    (t a s d : String) (r : TaskRecord) (rs : List TaskRecord)
    (hp : parse_task_type t = some (.assignment a s d))
    (hf : findMatches st t = r :: rs) :
    (complete_task_with_logic ⟨st, ni, [], now⟩ t).2.1 = [Mutation.update r.id "completed"] := by
  simp [complete_task_with_logic, find_tasks_by_title, netPop, hf, hp, update_task_status]

/-- C2 (amended): for every completion whose lookup matches at least one
record, the mutation trace is the status update of the first matched record
followed exactly by the successor mutations dictated by the descriptor
obtained by re-parsing the `task_title` argument of `complete_task` — not the
matched record's stored title, which may differ under the contains-based
lookup. -/
theorem complete_descriptor_from_argument (st : List TaskRecord) (ni : Nat) (now : Date)
    (t : String) (desc : TaskDescriptor) (r : TaskRecord) (rs : List TaskRecord)
    (hp : parse_task_type t = some desc)
    (hf : findMatches st t = r :: rs) :
    (complete_task_with_logic ⟨st, ni, [], now⟩ t).2.1 =
      Mutation.update r.id "completed" :: successorMutations ni now desc := by
  rcases desc with ⟨a, s, d⟩ | ⟨n, s, d⟩ | ⟨p, d⟩ | d
  · simp [complete_task_with_logic, find_tasks_by_title, netPop, hf, hp,
      update_task_status, successorMutations]
  · by_cases hn : 0 < n - 1 <;>
      simp [complete_task_with_logic, find_tasks_by_title, netPop, hf, hp, hn,
        update_task_status, create_task, mkRecord, format_date_ne_empty, successorMutations]
  · simp [complete_task_with_logic, find_tasks_by_title, netPop, hf, hp,
      update_task_status, successorMutations]
  · simp [complete_task_with_logic, find_tasks_by_title, netPop, hf, hp,
      update_task_status, successorMutations]

theorem call_tool_inner_ok_length (env : Env) (name : String) (args : Args) :
    ∀ l tr env1, call_tool_inner env name args = (Except.ok l, tr, env1) → l.length = 1 := by
  intro l tr env1 h
  unfold call_tool_inner at h
  repeat' split at h
  all_goals try simp_all
  all_goals (rcases h with ⟨h1, h2⟩; rw [← h1]; rfl)

/-- C9: for every tool name, argument value (including non-dict and
missing-key arguments) and environment (including failing store calls), the
dispatcher returns exactly one text payload to the caller; every exception
raised by parsing, the lifecycle engine or the store collaborator is caught
and converted to a text result. -/
theorem call_tool_single_text (env : Env) (name : String) (args : Args) :
    (call_tool env name args).1.length = 1 := by
  unfold call_tool
  split
  next texts tr env1 heq =>
    simpa using call_tool_inner_ok_length env name args texts tr env1 heq
  next e tr env1 heq =>
    simp

theorem intDecS_coe (p : Nat) : intDecS (p : Int) = natDecS p := by
  rw [intDecS, if_neg (by exact Int.not_lt.mpr (Int.natCast_nonneg p))]
  rw [show ((p : Int)).toNat = p from Int.toNat_natCast p]
  rfl

theorem isTokenB_noTrail {d : String} (hd : isTokenB d = true) : noTrailB d = true := by
  obtain ⟨hne, hns⟩ := isTokenB_iff.mp hd
  apply noTrailB_iff.mpr
  intro c hc
  exact hns c (List.mem_of_mem_getLast? hc)

/-- C10 (amended): the title `{p}* {d}` built by `add_priority_task` parses
back to kind `priority` with priority `p` (any non-negative integer — the
parser does not enforce the 1-5 schema range) and description `d` stripped of
surrounding whitespace; and for nonempty whitespace-free lowercase tokens `s`
and `d` where `d` does not end in `*`, the countdown title `5 {s} {d}` built
by on-create parses back to kind `countdown` with `days_left = 5`,
subject `s`, description `d`. -/
theorem title_construction_roundtrip (st : List TaskRecord) (ni : Nat) (now : Date)
    (p : Nat) (dsc : String) (s d : String)
    (hs : isTokenB s = true) (hd : isTokenB d = true)
    (_hls : pyLower s = s) (_hld : pyLower d = d)
    (hdstar : d.data.getLast? ≠ some '*') :
    (∃ r : TaskRecord,
      (call_tool ⟨st, ni, [], now⟩ "add_priority_task"
        (Args.dict [("priority", JVal.i p), ("description", JVal.s dsc)])).2.1 =
          [Mutation.create r]
      ∧ r.title = natDecS p ++ "* " ++ dsc
      ∧ parse_task_type r.title = some (.priority p (pyStrip dsc)))
    ∧ parse_task_type ("5 " ++ s ++ " " ++ d) = some (.countdown 5 s d) := by
  have hr : JVal.render (JVal.i (p : Int)) = natDecS p := by
    rw [show JVal.render (JVal.i (p : Int)) = intDecS (p : Int) from rfl, intDecS_coe]
  constructor
  · refine ⟨mkRecord ⟨st, ni, [], now⟩ (natDecS p ++ "* " ++ dsc) none none ""
      "priority" (some (JVal.i p)) none, ?_, ?_, ?_⟩
    · simp [call_tool, call_tool_inner, Args.get?, List.lookup, create_task, netPop, hr]
      rfl
    · simp [mkRecord]
    · simp only [mkRecord]
      exact parse_title_priority p dsc
  · obtain ⟨hdne, hdns⟩ := isTokenB_iff.mp hd
    obtain ⟨hsne, hsns⟩ := isTokenB_iff.mp hs
    have h5 : natDecS 5 = "5" := rfl
    have hstar : (stripList (natDecS 5 ++ " " ++ s ++ " " ++ d).data).getLast? ≠ some '*' := by
      have hdata : (natDecS 5 ++ " " ++ s ++ " " ++ d).data =
          ['5'] ++ ' ' :: (s.data ++ ' ' :: d.data) := by
        rw [h5]
        simp [String.data_append]
      rw [hdata, stripList_title ['5'] s.data d.data (by simp) (by decide) hsne hsns
        (fun c hc => hdns c (List.mem_of_mem_getLast? hc))]
      rw [if_neg hdne]
      have hgl2 : (['5'] ++ ' ' :: (s.data ++ ' ' :: d.data)).getLast? = d.data.getLast? := by
        cases hgl : d.data.getLast? with
        | none => exact absurd (List.getLast?_eq_none_iff.mp hgl) hdne
        | some c =>
          rw [List.getLast?_append]
          have h1 : (' ' :: (s.data ++ ' ' :: d.data)).getLast? = some c := by
            have e : (' ' :: (s.data ++ ' ' :: d.data)) = ([' '] ++ s.data ++ [' ']) ++ d.data := by
              simp
            rw [e, List.getLast?_append, hgl]
            rfl
          rw [h1]
          rfl
      rw [hgl2]
      exact hdstar
    have hc := parse_title_countdown 5 s d hs (isTokenB_noTrail hd) hstar
    rw [h5] at hc
    exact hc


/-- C1: the spec declares title parsing total (every string, the empty and
all-whitespace strings included, yields a descriptor, `regular` as fallback),
but `parse_task_type` raises `IndexError` at `title.split()[0]` on any title
that strips to the empty string. -/
theorem parse_task_type_not_total_on_empty :
    parse_task_type "" = none ∧ parse_task_type "   " = none := by decide

/-- C2 counterexample: the store holds one record titled `5 bio homework`
(a countdown with `days_left = 5`); completing with the argument
`bio homework` matches it via the contains-lookup, yet the plan carries no
successor create — the logic is driven by parsing the argument (`regular`),
not the matched record's title (`countdown 5`). -/
theorem complete_task_matched_title_descriptor_cex :
    findMatches [⟨"page-9", "5 bio homework", "", none, "countdown", none, none⟩] "bio homework" =
      [⟨"page-9", "5 bio homework", "", none, "countdown", none, none⟩]
    ∧ parse_task_type "5 bio homework" = some (.countdown 5 "bio" "homework")
    ∧ (complete_task_with_logic
        ⟨[⟨"page-9", "5 bio homework", "", none, "countdown", none, none⟩],
          0, [], ⟨2024, 3, 1⟩⟩ "bio homework").2.1 =
        [Mutation.update "page-9" "completed"]
    ∧ (complete_task_with_logic
        ⟨[⟨"page-9", "5 bio homework", "", none, "countdown", none, none⟩],
          0, [], ⟨2024, 3, 1⟩⟩ "bio homework").2.1 ≠
        Mutation.update "page-9" "completed" ::
          successorMutations 0 ⟨2024, 3, 1⟩ (.countdown 5 "bio" "homework") := by decide

/-- C2 witness: with an exact-title completion the theorem instantiates to the
countdown successor plan. -/
theorem complete_descriptor_from_argument_witness :
    (complete_task_with_logic
      ⟨[⟨"page-9", "5 bio homework", "", none, "countdown", none, none⟩],
        0, [], ⟨2024, 3, 1⟩⟩ "5 bio homework").2.1 =
      Mutation.update "page-9" "completed" ::
        successorMutations 0 ⟨2024, 3, 1⟩ (TaskDescriptor.countdown 5 "bio" "homework") :=
  complete_descriptor_from_argument
    [⟨"page-9", "5 bio homework", "", none, "countdown", none, none⟩]
    0 ⟨2024, 3, 1⟩ "5 bio homework" (TaskDescriptor.countdown 5 "bio" "homework")
    ⟨"page-9", "5 bio homework", "", none, "countdown", none, none⟩
    [] (by decide) (by decide)

/-- C3 counterexample: `0001-01-03` is a parseable `YYYY-MM-DD` date, but
subtracting five days leaves the `datetime` range, so the program issues the
anchor create only and then returns the caught `OverflowError` as an error
dict — not the two creates the original claim asserts for every parseable
due date. -/
theorem create_assignment_overflow_cex :
    date_strptime "0001-01-03" = some ⟨1, 1, 3⟩
    ∧ (create_assignment_with_countdown ⟨[], 0, [], ⟨2024, 1, 1⟩⟩ "H" "chem" "hw"
        "0001-01-03" none).2.1 =
      [Mutation.create ⟨"page-0", "H CHEM HW", "due", some "0001-01-03",
        "assignment", none, none⟩]
    ∧ (create_assignment_with_countdown ⟨[], 0, [], ⟨2024, 1, 1⟩⟩ "H" "chem" "hw"
        "0001-01-03" none).1 = AResult.err "date value out of range" := by decide

/-- C3 witness: the spec scenario — `add_assignment(H, chem, farabaugh8.1-8.3,
2024-03-10)` plans the anchor due 2024-03-10 with status due and the countdown
`5 chem farabaugh8.1-8.3` due 2024-03-05 linked to the anchor. -/
theorem create_assignment_plan_witness :
    (create_assignment_with_countdown ⟨[], 0, [], ⟨2024, 1, 1⟩⟩ "H" "chem" "farabaugh8.1-8.3"
      "2024-03-10" none).2.1 =
      [Mutation.create ⟨"page-0", "H CHEM FARABAUGH8.1-8.3", "due", some "2024-03-10",
        "assignment", none, none⟩,
       Mutation.create ⟨"page-1", "5 chem farabaugh8.1-8.3", "", some "2024-03-05",
        "countdown", none, some "page-0"⟩] :=
  (create_assignment_plan [] 0 ⟨2024, 1, 1⟩ "H" "chem" "farabaugh8.1-8.3" "2024-03-10" none
    ⟨2024, 3, 10⟩ ⟨2024, 3, 5⟩ (Or.inl rfl) (by decide) (by decide)).trans (by decide)

/-- C4 witness: completing `5 bio homework` on 2024-03-01 updates the matched
record and creates `4 bio homework` due 2024-03-02. -/
theorem complete_countdown_plan_witness :
    (complete_task_with_logic
      ⟨[⟨"page-9", "5 bio homework", "", none, "countdown", none, none⟩],
        0, [], ⟨2024, 3, 1⟩⟩ "5 bio homework").2.1 =
      [Mutation.update "page-9" "completed",
       Mutation.create ⟨"page-0", "4 bio homework", "", some "2024-03-02",
        "countdown", none, none⟩] :=
  (complete_countdown_plan
    [⟨"page-9", "5 bio homework", "", none, "countdown", none, none⟩]
    0 ⟨2024, 3, 1⟩ "5 bio homework" "bio" "homework" 5
    ⟨"page-9", "5 bio homework", "", none, "countdown", none, none⟩
    [] (by decide) (by decide)).trans (by decide)

/-- C5 (amended): for a nonempty whitespace-free token `s` and a string `d`
with no trailing whitespace, the titles `H {s} {d}`, `HTN {s} {d}` and
`Q {s} {d}` parse to assignments with the matching prefix, subject `s` and
description `d` (empty `d` defaults the field to the empty string); and for
every non-negative integer `n`, when the stripped title does not end in `*`,
`{n} {s} {d}` parses to a countdown with `days_left = n`. -/
theorem parse_structured_titles (s d : String) (n : Nat)
    (hs : isTokenB s = true) (hd : noTrailB d = true)
    (hstar : (stripList (natDecS n ++ " " ++ s ++ " " ++ d).data).getLast? ≠ some '*') :
    parse_task_type ("H " ++ s ++ " " ++ d) = some (.assignment "H" s d)
    ∧ parse_task_type ("HTN " ++ s ++ " " ++ d) = some (.assignment "HTN" s d)
    ∧ parse_task_type ("Q " ++ s ++ " " ++ d) = some (.assignment "Q" s d)
    ∧ parse_task_type (natDecS n ++ " " ++ s ++ " " ++ d) = some (.countdown n s d) :=
  ⟨parse_title_H s d hs hd, parse_title_HTN s d hs hd, parse_title_Q s d hs hd,
   parse_title_countdown n s d hs hd hstar⟩

/-- C5 counterexample: with `d = "x "` (trailing space) the parsed description
is `"x"`, not `d`; and with `s = "x*"`, `d = ""` the built title `3 x* ` does
not end in `*`, yet it parses as `regular`, not as the claimed countdown
(stripping exposes the trailing `*` to the parser's endswith check). -/
theorem parse_structured_titles_cex :
    parse_task_type ("H " ++ "a" ++ " " ++ "x ") = some (.assignment "H" "a" "x")
    ∧ parse_task_type ("H " ++ "a" ++ " " ++ "x ") ≠ some (.assignment "H" "a" "x ")
    ∧ (natDecS 3 ++ " " ++ "x*" ++ " " ++ "").data.getLast? = some ' '
    ∧ parse_task_type (natDecS 3 ++ " " ++ "x*" ++ " " ++ "") = some (.regular "3 x*")
    ∧ parse_task_type (natDecS 3 ++ " " ++ "x*" ++ " " ++ "") ≠ some (.countdown 3 "x*" "") := by
  decide

/-- C5 witness: the four title shapes at `s = "bio"`, `d = "homework"`,
`n = 5`. -/
theorem parse_structured_titles_witness :
    parse_task_type ("H " ++ "bio" ++ " " ++ "homework") =
      some (.assignment "H" "bio" "homework")
    ∧ parse_task_type ("HTN " ++ "bio" ++ " " ++ "homework") =
      some (.assignment "HTN" "bio" "homework")
    ∧ parse_task_type ("Q " ++ "bio" ++ " " ++ "homework") =
      some (.assignment "Q" "bio" "homework")
    ∧ parse_task_type (natDecS 5 ++ " " ++ "bio" ++ " " ++ "homework") =
      some (.countdown 5 "bio" "homework") :=
  parse_structured_titles "bio" "homework" 5 (by decide) (by decide) (by decide)

/-- C6 witness: completing a title absent from the store. -/
theorem complete_task_not_found_witness :
    complete_task_with_logic ⟨[], 0, [], ⟨2024, 3, 1⟩⟩ "nonexistent task" =
      (CResult.err ("Task '" ++ "nonexistent task" ++ "' not found"), [],
       ⟨[], 0, [], ⟨2024, 3, 1⟩⟩) :=
  complete_task_not_found [] 0 ⟨2024, 3, 1⟩ "nonexistent task" (by decide)

/-- C7 witness: an unparseable due date string. -/
theorem create_assignment_bad_date_witness :
    ∃ m, create_assignment_with_countdown ⟨[], 0, [], ⟨2024, 3, 1⟩⟩ "H" "chem" "hw"
      "not-a-date" none = (AResult.err m, [], ⟨[], 0, [], ⟨2024, 3, 1⟩⟩) :=
  create_assignment_bad_date [] 0 ⟨2024, 3, 1⟩ "H" "chem" "hw" "not-a-date" none (by decide)

/-- C8 witness: completing the assignment `H CHEM HW` updates only that
record. -/
theorem complete_assignment_single_update_witness :
    (complete_task_with_logic
      ⟨[⟨"page-3", "H CHEM HW", "due", none, "assignment", none, none⟩],
        0, [], ⟨2024, 3, 1⟩⟩ "H CHEM HW").2.1 = [Mutation.update "page-3" "completed"] :=
  complete_assignment_single_update
    [⟨"page-3", "H CHEM HW", "due", none, "assignment", none, none⟩]
    0 ⟨2024, 3, 1⟩ "H CHEM HW" "H" "CHEM" "HW"
    ⟨"page-3", "H CHEM HW", "due", none, "assignment", none, none⟩
    [] (by decide) (by decide)

/-- C10 counterexample: `hw*` is a nonempty whitespace-free lowercase token,
yet the countdown title `5 bio hw*` parses as `regular` (the trailing `*`
defeats the countdown rule), so the round trip fails without the
`d` does not end in `*` restriction. -/
theorem title_roundtrip_cex :
    parse_task_type ("5 " ++ "bio" ++ " " ++ "hw*") = some (.regular "5 bio hw*")
    ∧ parse_task_type ("5 " ++ "bio" ++ " " ++ "hw*") ≠ some (.countdown 5 "bio" "hw*") := by
  decide

/-- C10 witness: priority 1 with description `call hershey motel`, and the
countdown title `5 bio homework`. -/
theorem title_construction_roundtrip_witness :
    (∃ r : TaskRecord,
      (call_tool ⟨[], 0, [], ⟨2024, 3, 1⟩⟩ "add_priority_task"
        (Args.dict [("priority", JVal.i 1), ("description", JVal.s "call hershey motel")])).2.1 =
          [Mutation.create r]
      ∧ r.title = natDecS 1 ++ "* " ++ "call hershey motel"
      ∧ parse_task_type r.title = some (.priority 1 (pyStrip "call hershey motel")))
    ∧ parse_task_type ("5 " ++ "bio" ++ " " ++ "homework") = some (.countdown 5 "bio" "homework") :=
  title_construction_roundtrip [] 0 ⟨2024, 3, 1⟩ 1 "call hershey motel" "bio" "homework"
    (by decide) (by decide) (by decide) (by decide) (by decide)

end NotionMcp
